import Mathlib

/-!
Shallow embedding of
`ibm/service/cdtoolchain/resource_ibm_cd_toolchain_tool_securitycompliance.go`
from the `terraform-provider-ibm` repository, together with theorems about the
four CRUD handlers, the schema validator and the referent-to-map converter.

Terraform state (`*schema.ResourceData`) is modelled as an explicit record of
the fields declared by the resource schema; the generated SDK client
(`cdtoolchainv2`) is modelled as a record of oracle functions, and every
handler additionally returns the list of SDK calls it performed, so that
"invokes the SDK method" claims can be stated as facts about that trace.
-/

set_option autoImplicit false

namespace CdToolchainSecComp

/-! ## Terraform schema data model -/

/-- Terraform value types used by this resource's schema. -/
inductive TfValueType where
  | typeString
  | typeList
  | typeMap
deriving DecidableEq, Repr

/-- A field of a nested (`Elem`) schema block. -/
structure TfNestedSchema where
  name : String
  type : TfValueType
  required : Bool := false
  optional : Bool := false
  computed : Bool := false
  sensitive : Bool := false
deriving DecidableEq, Repr

/-- A top-level schema field of the resource. -/
structure TfTopSchema where
  name : String
  type : TfValueType
  required : Bool := false
  optional : Bool := false
  computed : Bool := false
  forceNew : Bool := false
  minItems : Nat := 0
  maxItems : Nat := 0
  elem : List TfNestedSchema := []
deriving DecidableEq, Repr

/-- A Terraform resource: its schema (the handlers are the functions below). -/
structure TfResource where
  schema : List TfTopSchema
deriving DecidableEq, Repr

/-- The schema of `ibm_cd_toolchain_tool_securitycompliance`, transcribed from
`ResourceIBMCdToolchainToolSecuritycompliance` in the source. -/
def ResourceIBMCdToolchainToolSecuritycompliance : TfResource :=
  { schema :=
      [ { name := "toolchain_id", type := .typeString, required := true, forceNew := true },
        { name := "parameters", type := .typeList, minItems := 1, maxItems := 1,
          required := true,
          elem :=
            [ { name := "name", type := .typeString, required := true },
              { name := "evidence_repo_name", type := .typeString, required := true },
              { name := "trigger_scan", type := .typeString, optional := true },
              { name := "location", type := .typeString, optional := true },
              { name := "evidence_namespace", type := .typeString, optional := true },
              { name := "api_key", type := .typeString, optional := true, sensitive := true },
              { name := "scope", type := .typeString, optional := true },
              { name := "profile", type := .typeString, optional := true },
              { name := "trigger_info", type := .typeMap, optional := true, computed := true } ] },
        { name := "name", type := .typeString, optional := true },
        { name := "resource_group_id", type := .typeString, computed := true },
        { name := "crn", type := .typeString, computed := true },
        { name := "toolchain_crn", type := .typeString, computed := true },
        { name := "href", type := .typeString, computed := true },
        { name := "referent", type := .typeList, computed := true,
          elem :=
            [ { name := "ui_href", type := .typeString, optional := true },
              { name := "api_href", type := .typeString, optional := true } ] },
        { name := "updated_at", type := .typeString, computed := true },
        { name := "state", type := .typeString, computed := true },
        { name := "tool_id", type := .typeString, computed := true } ] }

/-! ## SDK data model (`cdtoolchainv2`) -/

/-- A `map[string]interface{}` of tool parameters, modelled as an association
list from keys to (string-rendered) values. -/
abbrev ParamsMap := List (String × String)

/-- `cdtoolchainv2.ToolModelReferent`: URIs to access the resource; both Go
fields are `*string`, modelled as `Option String`. -/
structure ToolModelReferent where
  uiHref : Option String
  apiHref : Option String
deriving DecidableEq, Repr

/-- `cdtoolchainv2.ToolchainToolPost` (the `CreateTool` response body). Only
the `ID` field is consumed by the handler; the Go field is a `*string` that the
handler dereferences unconditionally, so it is modelled as `String`. -/
structure ToolchainToolPost where
  id : String
deriving DecidableEq, Repr

/-- `cdtoolchainv2.ToolchainTool` (the `GetToolByID` response body). The Go
pointer fields are modelled as `Option`; `Referent` is always populated by the
service and is dereferenced field-by-field by the converter, so it is modelled
as a plain value; `UpdatedAt` is a `*strfmt.DateTime`, modelled as an optional
opaque string. -/
structure ToolchainTool where
  toolchainID : Option String
  parameters : ParamsMap
  name : Option String
  resourceGroupID : Option String
  crn : Option String
  toolchainCRN : Option String
  href : Option String
  referent : ToolModelReferent
  updatedAt : Option String
  state : Option String
  id : Option String
deriving DecidableEq, Repr

/-- `cdtoolchainv2.CreateToolOptions`: every Go field is a pointer set by a
`Set...` method, so all fields are `Option` and start out unset. -/
structure CreateToolOptions where
  toolchainID : Option String := none
  toolTypeID : Option String := none
  parameters : Option ParamsMap := none
  name : Option String := none
deriving DecidableEq, Repr

/-- `cdtoolchainv2.GetToolByIDOptions`. -/
structure GetToolByIDOptions where
  toolchainID : Option String := none
  toolID : Option String := none
deriving DecidableEq, Repr

/-- `cdtoolchainv2.ToolchainToolPrototypePatch`. -/
structure ToolchainToolPrototypePatch where
  name : Option String := none
  toolTypeID : Option String := none
  parameters : Option ParamsMap := none
deriving DecidableEq, Repr

/-- `cdtoolchainv2.UpdateToolOptions`; `ToolchainToolPrototypePatch` holds the
result of `patchVals.AsPatch()`, modelled by the patch record itself. -/
structure UpdateToolOptions where
  toolchainID : Option String := none
  toolID : Option String := none
  toolchainToolPrototypePatch : Option ToolchainToolPrototypePatch := none
deriving DecidableEq, Repr

/-- `cdtoolchainv2.DeleteToolOptions`. -/
structure DeleteToolOptions where
  toolchainID : Option String := none
  toolID : Option String := none
deriving DecidableEq, Repr

/-- The part of `core.DetailedResponse` the handlers inspect. -/
structure DetailedResponse where
  statusCode : Nat
deriving DecidableEq, Repr

/-- Result of an SDK call: the Go triple `(result, response, err)`, where on
error the response may be absent. -/
inductive SdkResult (α : Type) where
  | ok (result : α) (response : DetailedResponse)
  | err (msg : String) (response : Option DetailedResponse)
deriving Repr

/-- The SDK client (`cdtoolchainv2.CdToolchainV2`) as a record of oracles, one
per method used by the handlers. -/
structure CdToolchainClient where
  createTool : CreateToolOptions → SdkResult ToolchainToolPost
  getToolByID : GetToolByIDOptions → SdkResult ToolchainTool
  updateTool : UpdateToolOptions → SdkResult Unit
  deleteTool : DeleteToolOptions → SdkResult Unit

/-! ## Terraform state and handler plumbing -/

/-- `*schema.ResourceData` restricted to this resource's schema. String fields
hold Terraform's zero value `""` when unset (`d.GetOk` reports a string field
as set exactly when it is non-zero). `changedFields` records which top-level
fields `d.HasChange` reports as changed. -/
structure ResourceData where
  id : String
  toolchain_id : String
  parameters : List ParamsMap
  name : String
  resource_group_id : String
  crn : String
  toolchain_crn : String
  href : String
  referent : List ParamsMap
  updated_at : String
  state : String
  tool_id : String
  changedFields : List String
deriving DecidableEq, Repr

/-- One SDK invocation performed by a handler, with the options it was given. -/
inductive SdkCall where
  | createTool (opts : CreateToolOptions)
  | getToolByID (opts : GetToolByIDOptions)
  | updateTool (opts : UpdateToolOptions)
  | deleteTool (opts : DeleteToolOptions)
deriving DecidableEq, Repr

/-- What a CRUD handler produces: its diagnostics (`none` = no error
diagnostic), the resulting Terraform state, and the trace of SDK calls it
made, in order. -/
structure HandlerResult where
  diags : Option String
  d : ResourceData
  calls : List SdkCall
deriving Repr

/-- The environment a handler runs in: the (possibly failing) client session
`meta.(conns.ClientSession).CdToolchainV2()` and the three parameter-marshalling
helpers from the provider's `cdtoolchain` package, which are outside the scope
of this file and therefore kept abstract. -/
structure Env where
  clientSession : Except String CdToolchainClient
  getParametersForCreate : ResourceData → TfResource → List (String × String) → ParamsMap
  getParametersFromRead : ParamsMap → TfResource → List (String × String) → ParamsMap
  getParametersForUpdate : ResourceData → TfResource → List (String × String) → ParamsMap

/-- Split a list of characters at every occurrence of the separator
character; the Go `strings.Split`, restricted to one-character separators. -/
def splitOnChar (sep : Char) : List Char → List (List Char)
  | [] => [[]]
  | c :: cs =>
    if c = sep then [] :: splitOnChar sep cs
    else
      match splitOnChar sep cs with
      | [] => [[c]]
      | x :: xs => (c :: x) :: xs

/-- Modelled from the spec: `flex.SepIdParts` (provider helper outside this
file's scope) splits the resource ID on the separator character, failing when
the separator does not occur in the ID. -/
def SepIdParts (id : String) (sep : Char) : Except String (List String) :=
  let parts := (splitOnChar sep id.toList).map fun cs => String.mk cs
  if parts.length ≥ 2 then Except.ok parts
  else Except.error ("The given id " ++ id ++ " does not contain " ++ String.mk [sep])

/-- Modelled from the spec: `flex.DateTimeToString` (provider helper outside
this file's scope) renders an SDK date-time as a string, empty when absent. -/
def DateTimeToString : Option String → String
  | none => ""
  | some s => s

/-! ## The referent-to-map converter -/

/-- `resourceIBMCdToolchainToolSecuritycomplianceToolModelReferentToMap`: the
returned `map[string]interface{}` is modelled as an association list built in
the order the Go code inserts the keys. -/
def resourceIBMCdToolchainToolSecuritycomplianceToolModelReferentToMap
    (model : ToolModelReferent) : Except String ParamsMap :=
  let modelMap : ParamsMap := []
  let modelMap := match model.uiHref with
    | some v => modelMap ++ [("ui_href", v)]
    | none => modelMap
  let modelMap := match model.apiHref with
    | some v => modelMap ++ [("api_href", v)]
    | none => modelMap
  Except.ok modelMap

/-! ## The CRUD handlers -/

/-- `resourceIBMCdToolchainToolSecuritycomplianceRead`. -/
def resourceIBMCdToolchainToolSecuritycomplianceRead (env : Env) (d : ResourceData) :
    HandlerResult :=
  match env.clientSession with
  | .error e => { diags := some e, d := d, calls := [] }
  | .ok cdToolchainClient =>
    match SepIdParts d.id '/' with
    | .error e => { diags := some e, d := d, calls := [] }
    | .ok parts =>
      let getToolByIDOptions : GetToolByIDOptions :=
        { toolchainID := some (parts.getD 0 ""), toolID := some (parts.getD 1 "") }
      match cdToolchainClient.getToolByID getToolByIDOptions with
      | .err e response =>
        if (match response with | some r => decide (r.statusCode = 404) | none => false) then
          { diags := none, d := { d with id := "" },
            calls := [SdkCall.getToolByID getToolByIDOptions] }
        else
          { diags := some ("GetToolByIDWithContext failed " ++ e), d := d,
            calls := [SdkCall.getToolByID getToolByIDOptions] }
      | .ok toolchainTool _response =>
        let d := { d with toolchain_id := toolchainTool.toolchainID.getD "" }
        let remapFields := [("api_key", "api-key")]
        let parametersMap := env.getParametersFromRead toolchainTool.parameters
          ResourceIBMCdToolchainToolSecuritycompliance remapFields
        let d := { d with parameters := [parametersMap] }
        let d := { d with name := toolchainTool.name.getD "" }
        let d := { d with resource_group_id := toolchainTool.resourceGroupID.getD "" }
        let d := { d with crn := toolchainTool.crn.getD "" }
        let d := { d with toolchain_crn := toolchainTool.toolchainCRN.getD "" }
        let d := { d with href := toolchainTool.href.getD "" }
        match resourceIBMCdToolchainToolSecuritycomplianceToolModelReferentToMap
            toolchainTool.referent with
        | .error e =>
          { diags := some e, d := d, calls := [SdkCall.getToolByID getToolByIDOptions] }
        | .ok referentMap =>
          let d := { d with referent := [referentMap] }
          let d := { d with updated_at := DateTimeToString toolchainTool.updatedAt }
          let d := { d with state := toolchainTool.state.getD "" }
          let d := { d with tool_id := toolchainTool.id.getD "" }
          { diags := none, d := d, calls := [SdkCall.getToolByID getToolByIDOptions] }

/-- `resourceIBMCdToolchainToolSecuritycomplianceCreate`. On success the
handler delegates to the Read handler, so its trace is the CreateTool call
followed by whatever Read performs. -/
def resourceIBMCdToolchainToolSecuritycomplianceCreate (env : Env) (d : ResourceData) :
    HandlerResult :=
  match env.clientSession with
  | .error e => { diags := some e, d := d, calls := [] }
  | .ok cdToolchainClient =>
    let createToolOptions : CreateToolOptions := {}
    let createToolOptions := { createToolOptions with toolchainID := some d.toolchain_id }
    let createToolOptions := { createToolOptions with toolTypeID := some "security_compliance" }
    let remapFields := [("api_key", "api-key")]
    let parametersModel := env.getParametersForCreate d
      ResourceIBMCdToolchainToolSecuritycompliance remapFields
    let createToolOptions := { createToolOptions with parameters := some parametersModel }
    let createToolOptions :=
      if d.name ≠ "" then { createToolOptions with name := some d.name } else createToolOptions
    match cdToolchainClient.createTool createToolOptions with
    | .err e _response =>
      { diags := some ("CreateToolWithContext failed " ++ e), d := d,
        calls := [SdkCall.createTool createToolOptions] }
    | .ok toolchainToolPost _response =>
      let d := { d with
        id := createToolOptions.toolchainID.getD "" ++ "/" ++ toolchainToolPost.id }
      let res := resourceIBMCdToolchainToolSecuritycomplianceRead env d
      { diags := res.diags, d := res.d,
        calls := SdkCall.createTool createToolOptions :: res.calls }

/-- The error message the Update handler produces when the ForceNew field
`toolchain_id` has changed. -/
def forceNewDiagMsg : String :=
  "Cannot update resource property \"toolchain_id\" with the ForceNew annotation. The resource must be re-created to update this property."

/-- `resourceIBMCdToolchainToolSecuritycomplianceUpdate`. -/
def resourceIBMCdToolchainToolSecuritycomplianceUpdate (env : Env) (d : ResourceData) :
    HandlerResult :=
  match env.clientSession with
  | .error e => { diags := some e, d := d, calls := [] }
  | .ok cdToolchainClient =>
    let updateToolOptions : UpdateToolOptions := {}
    match SepIdParts d.id '/' with
    | .error e => { diags := some e, d := d, calls := [] }
    | .ok parts =>
      let updateToolOptions := { updateToolOptions with toolchainID := some (parts.getD 0 "") }
      let updateToolOptions := { updateToolOptions with toolID := some (parts.getD 1 "") }
      let hasChange := false
      let patchVals : ToolchainToolPrototypePatch := {}
      if d.changedFields.contains "toolchain_id" then
        { diags := some forceNewDiagMsg, d := d, calls := [] }
      else
        let step1 :=
          if d.changedFields.contains "parameters" then
            let remapFields := [("api_key", "api-key")]
            let parameters := env.getParametersForUpdate d
              ResourceIBMCdToolchainToolSecuritycompliance remapFields
            ({ patchVals with parameters := some parameters }, true)
          else (patchVals, hasChange)
        let patchVals := step1.1
        let hasChange := step1.2
        let step2 :=
          if d.changedFields.contains "name" then
            let newName := d.name
            ({ patchVals with name := some newName }, true)
          else (patchVals, hasChange)
        let patchVals := step2.1
        let hasChange := step2.2
        if hasChange then
          let updateToolOptions :=
            { updateToolOptions with toolchainToolPrototypePatch := some patchVals }
          match cdToolchainClient.updateTool updateToolOptions with
          | .err e _response =>
            { diags := some ("UpdateToolWithContext failed " ++ e), d := d,
              calls := [SdkCall.updateTool updateToolOptions] }
          | .ok _ _response =>
            let res := resourceIBMCdToolchainToolSecuritycomplianceRead env d
            { diags := res.diags, d := res.d,
              calls := SdkCall.updateTool updateToolOptions :: res.calls }
        else
          resourceIBMCdToolchainToolSecuritycomplianceRead env d

/-- `resourceIBMCdToolchainToolSecuritycomplianceDelete`. -/
def resourceIBMCdToolchainToolSecuritycomplianceDelete (env : Env) (d : ResourceData) :
    HandlerResult :=
  match env.clientSession with
  | .error e => { diags := some e, d := d, calls := [] }
  | .ok cdToolchainClient =>
    let deleteToolOptions : DeleteToolOptions := {}
    match SepIdParts d.id '/' with
    | .error e => { diags := some e, d := d, calls := [] }
    | .ok parts =>
      let deleteToolOptions := { deleteToolOptions with toolchainID := some (parts.getD 0 "") }
      let deleteToolOptions := { deleteToolOptions with toolID := some (parts.getD 1 "") }
      match cdToolchainClient.deleteTool deleteToolOptions with
      | .err e _response =>
        { diags := some ("DeleteToolWithContext failed " ++ e), d := d,
          calls := [SdkCall.deleteTool deleteToolOptions] }
      | .ok _ _response =>
        { diags := none, d := { d with id := "" },
          calls := [SdkCall.deleteTool deleteToolOptions] }

/-! ## The schema validator -/

/-- One entry of the `validate.ValidateSchema` slice, with the fields the
source sets. -/
structure ValidateSchema where
  identifier : String
  regexp : String
  minValueLength : Nat
  maxValueLength : Nat
  required : Bool := false
  optional : Bool := false
deriving DecidableEq, Repr

/-- `ResourceIBMCdToolchainToolSecuritycomplianceValidator`: the validator
schema entries, transcribed from the source. -/
def ResourceIBMCdToolchainToolSecuritycomplianceValidator : List ValidateSchema :=
  [ { identifier := "toolchain_id",
      regexp := "^[a-fA-F0-9]\x7b8\x7d-[a-fA-F0-9]\x7b4\x7d-4[a-fA-F0-9]\x7b3\x7d-[89abAB][a-fA-F0-9]\x7b3\x7d-[a-fA-F0-9]\x7b12\x7d$",
      minValueLength := 36, maxValueLength := 36, required := true },
    { identifier := "name",
      regexp := "^([^\\x00-\\x7F]|[a-zA-Z0-9-._ ])+$",
      minValueLength := 0, maxValueLength := 128, optional := true } ]

/-- A hexadecimal digit, the character class `[a-fA-F0-9]`. -/
def uuidHexChar (c : Char) : Bool :=
  c.isDigit || (('a' ≤ c) && (c ≤ 'f')) || (('A' ≤ c) && (c ≤ 'F'))

/-- The character class `[89abAB]`. -/
def uuidVariantChar (c : Char) : Bool :=
  c = '8' || c = '9' || c = 'a' || c = 'b' || c = 'A' || c = 'B'

/-- Consume one character satisfying `p`, the regex atom for a character
class. -/
def consumeClass (p : Char → Bool) : List Char → Option (List Char)
  | [] => none
  | c :: cs => if p c then some cs else none

/-- Consume exactly `n` characters satisfying `p`, the regex counted repeat
of a character class. -/
def consumeClassN (p : Char → Bool) : Nat → List Char → Option (List Char)
  | 0, cs => some cs
  | n + 1, cs => (consumeClass p cs).bind (consumeClassN p n)

/-- Consume one literal character. -/
def consumeLit (x : Char) : List Char → Option (List Char)
  | [] => none
  | c :: cs => if c = x then some cs else none

/-- Compiled form of the anchored pattern
`[a-fA-F0-9]x8 - [a-fA-F0-9]x4 - 4 [a-fA-F0-9]x3 - [89abAB] [a-fA-F0-9]x3 -
[a-fA-F0-9]x12` from the `toolchain_id` validator entry (a version-4 UUID). -/
def matchToolchainIdRegexp (s : String) : Bool :=
  (((((((((some s.toList).bind (consumeClassN uuidHexChar 8)).bind
      (consumeLit '-')).bind
      (consumeClassN uuidHexChar 4)).bind
      (consumeLit '-')).bind fun cs =>
      ((consumeLit '4' cs).bind (consumeClassN uuidHexChar 3))).bind
      (consumeLit '-')).bind fun cs =>
      ((consumeClass uuidVariantChar cs).bind (consumeClassN uuidHexChar 3))).bind
      (consumeLit '-')).bind
      (consumeClassN uuidHexChar 12) = some []

/-- The character class of the `name` validator pattern: a non-ASCII character
or one of `[a-zA-Z0-9-._ ]`. -/
def nameChar (c : Char) : Bool :=
  (0x7F < c.toNat) || c.isAlpha || c.isDigit || c = '-' || c = '.' || c = '_' || c = ' '

/-- Compiled form of the anchored pattern `(nameChar)+` from the `name`
validator entry: one or more characters of the class. -/
def matchNameRegexp (s : String) : Bool :=
  !s.toList.isEmpty && s.toList.all nameChar

/-- Modelled from the spec: `validate.ValidateRegexpLen` (provider helper
outside this file's scope) accepts a string when its length lies within the
declared bounds and it matches the declared regular expression. -/
def validateRegexpLen (minLen maxLen : Nat) (regexpMatch : String → Bool) (s : String) : Bool :=
  decide (minLen ≤ s.length) && decide (s.length ≤ maxLen) && regexpMatch s

/-- Acceptance of a `toolchain_id` value by the validator: the first
`ValidateSchema` entry applied through `validateRegexpLen`. -/
def acceptToolchainId (s : String) : Bool :=
  validateRegexpLen 36 36 matchToolchainIdRegexp s

/-- Acceptance of a `name` value by the validator: the second `ValidateSchema`
entry applied through `validateRegexpLen`. -/
def acceptName (s : String) : Bool :=
  validateRegexpLen 0 128 matchNameRegexp s

/-! ## Call-trace predicates -/

/-- Whether a traced SDK call is a `CreateTool` invocation. -/
def isCreateToolCall : SdkCall → Bool
  | .createTool _ => true
  | _ => false

/-- Whether a traced SDK call is a `GetToolByID` invocation. -/
def isGetToolByIDCall : SdkCall → Bool
  | .getToolByID _ => true
  | _ => false

/-- Whether a traced SDK call is an `UpdateTool` invocation. -/
def isUpdateToolCall : SdkCall → Bool
  | .updateTool _ => true
  | _ => false

/-- Whether a traced SDK call is a `DeleteTool` invocation. -/
def isDeleteToolCall : SdkCall → Bool
  | .deleteTool _ => true
  | _ => false

/-! ## Concrete fixtures used by the witness theorems -/

/-- A sample referent. -/
def sampleReferent : ToolModelReferent :=
  { uiHref := some "https://ui.example", apiHref := some "https://api.example" }

/-- A sample `GetToolByID` response body. -/
def sampleTool : ToolchainTool :=
  { toolchainID := some "tc1", parameters := [("name", "sc-tool")], name := some "sc-tool",
    resourceGroupID := some "rg1", crn := some "crn1", toolchainCRN := some "tcrn1",
    href := some "href1", referent := sampleReferent, updatedAt := some "2022-01-01T00:00:00Z",
    state := some "configured", id := some "tool1" }

/-- A client whose calls all succeed. -/
def okClient : CdToolchainClient :=
  { createTool := fun _ => .ok { id := "tool1" } { statusCode := 201 },
    getToolByID := fun _ => .ok sampleTool { statusCode := 200 },
    updateTool := fun _ => .ok () { statusCode := 200 },
    deleteTool := fun _ => .ok () { statusCode := 204 } }

/-- A client whose `GetToolByID` fails with a 404 response. -/
def notFoundClient : CdToolchainClient :=
  { okClient with getToolByID := fun _ => .err "Not Found" (some { statusCode := 404 }) }

/-- A sample environment around `okClient`; the abstract parameter helpers are
instantiated with simple projections. -/
def sampleEnv : Env :=
  { clientSession := Except.ok okClient,
    getParametersForCreate := fun d _ _ => d.parameters.getD 0 [],
    getParametersFromRead := fun p _ _ => p,
    getParametersForUpdate := fun d _ _ => d.parameters.getD 0 [] }

/-- A sample environment around `notFoundClient`. -/
def notFoundEnv : Env := { sampleEnv with clientSession := Except.ok notFoundClient }

/-- Sample Terraform state with no pending changes. -/
def sampleData : ResourceData :=
  { id := "tc1/tool1", toolchain_id := "tc1", parameters := [[("name", "sc-tool")]],
    name := "my-sc-tool", resource_group_id := "", crn := "", toolchain_crn := "", href := "",
    referent := [], updated_at := "", state := "", tool_id := "", changedFields := [] }

/-- Sample Terraform state whose `toolchain_id` has a pending change. -/
def changedTcData : ResourceData := { sampleData with changedFields := ["toolchain_id"] }

/-! ## Theorems -/

/-- C6: for every input referent model, the converter returns a map holding
`ui_href` exactly when `UIHref` is non-nil (bound to that field's value) and
`api_href` exactly when `APIHref` is non-nil, holding no other keys, and its
error result is always nil. -/
theorem referentToMap_spec (model : ToolModelReferent) :
    ∃ m : ParamsMap,
      resourceIBMCdToolchainToolSecuritycomplianceToolModelReferentToMap model =
        Except.ok m ∧
      m.lookup "ui_href" = model.uiHref ∧
      m.lookup "api_href" = model.apiHref ∧
      ∀ p ∈ m, p.1 = "ui_href" ∨ p.1 = "api_href" := by
  obtain ⟨u, a⟩ := model
  cases u <;> cases a <;>
    simp [resourceIBMCdToolchainToolSecuritycomplianceToolModelReferentToMap, List.lookup]
  tauto

/-- C5 counterexample: the empty string satisfies the claim's stated
acceptance condition for `name` (length at most 128 and every character in
the allowed class, vacuously), yet the validator rejects it, because the
pattern `(...)+` demands at least one character. -/
theorem acceptName_empty_counterexample :
    acceptName "" = false ∧ String.length "" ≤ 128 ∧ "".toList.all nameChar = true := by
  refine ⟨rfl, by decide, rfl⟩

/-- C5 (amended): the validator accepts a `toolchain_id` value iff it is
exactly 36 characters long and matches the version-4 UUID pattern, and
accepts a `name` value iff it is nonempty, at most 128 characters long, and
every character is either non-ASCII or in `[a-zA-Z0-9-._ ]`. -/
theorem validator_accepts_iff (s : String) :
    (acceptToolchainId s = true ↔ s.length = 36 ∧ matchToolchainIdRegexp s = true) ∧
    (acceptName s = true ↔
      0 < s.length ∧ s.length ≤ 128 ∧ ∀ c ∈ s.toList, nameChar c = true) := by
  constructor
  · simp only [acceptToolchainId, validateRegexpLen, Bool.and_eq_true, decide_eq_true_eq]
    constructor
    · rintro ⟨⟨h1, h2⟩, h3⟩
      exact ⟨le_antisymm h2 h1, h3⟩
    · rintro ⟨h1, h2⟩
      exact ⟨⟨h1.ge, h1.le⟩, h2⟩
  · obtain ⟨l⟩ := s
    simp only [acceptName, validateRegexpLen, matchNameRegexp, Bool.and_eq_true,
      decide_eq_true_eq, List.all_eq_true, Bool.not_eq_true', String.length, String.toList]
    cases l with
    | nil => simp
    | cons c cs =>
      simp only [List.isEmpty_cons, List.length_cons]
      constructor
      · rintro ⟨⟨_, h2⟩, _, h4⟩
        exact ⟨Nat.succ_pos _, h2, h4⟩
      · rintro ⟨_, h2, h3⟩
        exact ⟨⟨Nat.zero_le _, h2⟩, trivial, h3⟩

/-- Helper: the Read handler performs at most one SDK call, and any call it
performs is a `GetToolByID`. -/
theorem read_calls_shape (env : Env) (d : ResourceData) :
    (resourceIBMCdToolchainToolSecuritycomplianceRead env d).calls = [] ∨
    ∃ o, (resourceIBMCdToolchainToolSecuritycomplianceRead env d).calls =
      [SdkCall.getToolByID o] := by
  unfold resourceIBMCdToolchainToolSecuritycomplianceRead
  dsimp only
  repeat' split
  all_goals first
    | exact Or.inl rfl
    | exact Or.inr ⟨_, rfl⟩

/-- C1: a Create invocation that obtains the client session builds its
CreateTool request from state (toolchain_id from state, parameters through
`GetParametersForCreate` with `api_key` remapped to `api-key`, name only when
set), invokes CreateTool with it, and on success sets the resource id to
`toolchainID/toolID` and delegates to the Read handler. -/
theorem create_marshals_and_delegates (env : Env) (d : ResourceData) (c : CdToolchainClient)
    (hc : env.clientSession = Except.ok c) :
    resourceIBMCdToolchainToolSecuritycomplianceCreate env d =
      (fun createToolOptions =>
        match c.createTool createToolOptions with
        | .err e _response =>
          { diags := some ("CreateToolWithContext failed " ++ e), d := d,
            calls := [SdkCall.createTool createToolOptions] }
        | .ok post _response =>
          { diags := (resourceIBMCdToolchainToolSecuritycomplianceRead env
              { d with id := d.toolchain_id ++ "/" ++ post.id }).diags,
            d := (resourceIBMCdToolchainToolSecuritycomplianceRead env
              { d with id := d.toolchain_id ++ "/" ++ post.id }).d,
            calls := SdkCall.createTool createToolOptions ::
              (resourceIBMCdToolchainToolSecuritycomplianceRead env
                { d with id := d.toolchain_id ++ "/" ++ post.id }).calls })
      { toolchainID := some d.toolchain_id,
        toolTypeID := some "security_compliance",
        parameters := some (env.getParametersForCreate d
          ResourceIBMCdToolchainToolSecuritycompliance [("api_key", "api-key")]),
        name := if d.name ≠ "" then some d.name else none } := by
  unfold resourceIBMCdToolchainToolSecuritycomplianceCreate
  by_cases hn : d.name = "" <;>
    simp [hc, hn]

/-- C2: a Read invocation whose GetToolByID call succeeds mirrors every field
of the returned tool into state (parameters through `GetParametersFromRead`
with `api_key` remapped, referent through the converter, updated_at through
the date-time conversion) and returns no error diagnostic. -/
theorem read_success_mirrors_fields (env : Env) (d : ResourceData) (c : CdToolchainClient)
    (parts : List String) (tool : ToolchainTool) (resp : DetailedResponse) (rm : ParamsMap)
    (hc : env.clientSession = Except.ok c)
    (hp : SepIdParts d.id '/' = Except.ok parts)
    (hcall : c.getToolByID
        { toolchainID := some (parts.getD 0 ""), toolID := some (parts.getD 1 "") } =
      SdkResult.ok tool resp)
    (hr : resourceIBMCdToolchainToolSecuritycomplianceToolModelReferentToMap tool.referent =
      Except.ok rm) :
    resourceIBMCdToolchainToolSecuritycomplianceRead env d =
      { diags := none,
        d := { d with
          toolchain_id := tool.toolchainID.getD "",
          parameters := [env.getParametersFromRead tool.parameters
            ResourceIBMCdToolchainToolSecuritycompliance [("api_key", "api-key")]],
          name := tool.name.getD "",
          resource_group_id := tool.resourceGroupID.getD "",
          crn := tool.crn.getD "",
          toolchain_crn := tool.toolchainCRN.getD "",
          href := tool.href.getD "",
          referent := [rm],
          updated_at := DateTimeToString tool.updatedAt,
          state := tool.state.getD "",
          tool_id := tool.id.getD "" },
        calls := [SdkCall.getToolByID
          { toolchainID := some (parts.getD 0 ""), toolID := some (parts.getD 1 "") }] } := by
  unfold resourceIBMCdToolchainToolSecuritycomplianceRead
  simp only [hc, hp]
  rw [hcall]
  dsimp only
  rw [hr]

/-- C8: a Read invocation whose GetToolByID call fails clears the resource id
and reports no error diagnostic when the failure carries a 404 response;
for any other failure it returns an error diagnostic and leaves the resource
id (and all state) unchanged. -/
theorem read_error_spec (env : Env) (d : ResourceData) (c : CdToolchainClient)
    (parts : List String) (e : String) (response : Option DetailedResponse)
    (hc : env.clientSession = Except.ok c)
    (hp : SepIdParts d.id '/' = Except.ok parts)
    (hcall : c.getToolByID
        { toolchainID := some (parts.getD 0 ""), toolID := some (parts.getD 1 "") } =
      SdkResult.err e response) :
    resourceIBMCdToolchainToolSecuritycomplianceRead env d =
      if (match response with | some r => decide (r.statusCode = 404) | none => false) then
        { diags := none, d := { d with id := "" },
          calls := [SdkCall.getToolByID
            { toolchainID := some (parts.getD 0 ""), toolID := some (parts.getD 1 "") }] }
      else
        { diags := some ("GetToolByIDWithContext failed " ++ e), d := d,
          calls := [SdkCall.getToolByID
            { toolchainID := some (parts.getD 0 ""), toolID := some (parts.getD 1 "") }] } := by
  unfold resourceIBMCdToolchainToolSecuritycomplianceRead
  simp only [hc, hp]
  rw [hcall]

/-- C4: a Delete invocation calls DeleteTool with the toolchain and tool ids
parsed from the resource id; on success the resource id is set to the empty
string with no error diagnostic, and on failure an error diagnostic is
returned with the state left unchanged. -/
theorem delete_spec (env : Env) (d : ResourceData) (c : CdToolchainClient)
    (parts : List String)
    (hc : env.clientSession = Except.ok c)
    (hp : SepIdParts d.id '/' = Except.ok parts) :
    resourceIBMCdToolchainToolSecuritycomplianceDelete env d =
      match c.deleteTool
          { toolchainID := some (parts.getD 0 ""), toolID := some (parts.getD 1 "") } with
      | .err e _ =>
        { diags := some ("DeleteToolWithContext failed " ++ e), d := d,
          calls := [SdkCall.deleteTool
            { toolchainID := some (parts.getD 0 ""), toolID := some (parts.getD 1 "") }] }
      | .ok _ _ =>
        { diags := none, d := { d with id := "" },
          calls := [SdkCall.deleteTool
            { toolchainID := some (parts.getD 0 ""), toolID := some (parts.getD 1 "") }] } := by
  unfold resourceIBMCdToolchainToolSecuritycomplianceDelete
  simp only [hc, hp]

/-- C10: an Update invocation whose toolchain_id has a pending change returns
the ForceNew error diagnostic before building any patch, without invoking
UpdateTool and with the state unchanged; the diagnostic names the ForceNew
property. -/
theorem update_forcenew_spec (env : Env) (d : ResourceData) (c : CdToolchainClient)
    (parts : List String)
    (hc : env.clientSession = Except.ok c)
    (hp : SepIdParts d.id '/' = Except.ok parts)
    (hch : d.changedFields.contains "toolchain_id" = true) :
    resourceIBMCdToolchainToolSecuritycomplianceUpdate env d =
      { diags := some forceNewDiagMsg, d := d, calls := [] } ∧
    ∃ s1 s2 : String, forceNewDiagMsg = s1 ++ ("ForceNew" ++ s2) := by
  constructor
  · unfold resourceIBMCdToolchainToolSecuritycomplianceUpdate
    simp at hch
    simp [hc, hp, hch]
  · exact ⟨"Cannot update resource property \"toolchain_id\" with the ",
      " annotation. The resource must be re-created to update this property.", rfl⟩

/-- Helper: any call traced by the Read handler is a `GetToolByID`. -/
theorem read_calls_mem (env : Env) (d : ResourceData) :
    ∀ call ∈ (resourceIBMCdToolchainToolSecuritycomplianceRead env d).calls,
      ∃ o, call = SdkCall.getToolByID o := by
  intro call hm
  rcases read_calls_shape env d with h | ⟨o, h⟩ <;> rw [h] at hm <;> simp at hm
  exact ⟨o, hm⟩

/-- Helper: per-method call counts of the Read handler's trace. -/
theorem read_countP_calls (env : Env) (d : ResourceData) :
    (resourceIBMCdToolchainToolSecuritycomplianceRead env d).calls.countP
      isGetToolByIDCall ≤ 1 ∧
    (resourceIBMCdToolchainToolSecuritycomplianceRead env d).calls.countP
      isCreateToolCall = 0 ∧
    (resourceIBMCdToolchainToolSecuritycomplianceRead env d).calls.countP
      isUpdateToolCall = 0 ∧
    (resourceIBMCdToolchainToolSecuritycomplianceRead env d).calls.countP
      isDeleteToolCall = 0 := by
  rcases read_calls_shape env d with h | ⟨o, h⟩ <;>
    simp [h, List.countP_cons, List.countP_nil, isGetToolByIDCall, isCreateToolCall,
      isUpdateToolCall, isDeleteToolCall]

/-- C3 counterexample: an Update invocation whose state has no pending
changes performs zero UpdateTool calls, not exactly one. -/
theorem update_no_change_zero_calls :
    (resourceIBMCdToolchainToolSecuritycomplianceUpdate sampleEnv sampleData).calls.countP
      isUpdateToolCall = 0 ∧
    ¬ ((resourceIBMCdToolchainToolSecuritycomplianceUpdate sampleEnv sampleData).calls.countP
      isUpdateToolCall = 1) := by
  have h : (resourceIBMCdToolchainToolSecuritycomplianceUpdate sampleEnv sampleData).calls.countP
      isUpdateToolCall = 0 := rfl
  refine ⟨h, ?_⟩
  rw [h]
  omega

/-- C3 (amended): each of the four operations invokes its corresponding SDK
method at most once per invocation (exactly once only on the paths that reach
the call). -/
theorem operations_invoke_method_at_most_once (env : Env) (d : ResourceData) :
    (resourceIBMCdToolchainToolSecuritycomplianceCreate env d).calls.countP
      isCreateToolCall ≤ 1 ∧
    (resourceIBMCdToolchainToolSecuritycomplianceRead env d).calls.countP
      isGetToolByIDCall ≤ 1 ∧
    (resourceIBMCdToolchainToolSecuritycomplianceUpdate env d).calls.countP
      isUpdateToolCall ≤ 1 ∧
    (resourceIBMCdToolchainToolSecuritycomplianceDelete env d).calls.countP
      isDeleteToolCall ≤ 1 := by
  have hcr : ∀ d' : ResourceData,
      (resourceIBMCdToolchainToolSecuritycomplianceRead env d').calls.countP
        isCreateToolCall = 0 := fun d' => (read_countP_calls env d').2.1
  have hup : ∀ d' : ResourceData,
      (resourceIBMCdToolchainToolSecuritycomplianceRead env d').calls.countP
        isUpdateToolCall = 0 := fun d' => (read_countP_calls env d').2.2.1
  refine ⟨?_, (read_countP_calls env d).1, ?_, ?_⟩
  · unfold resourceIBMCdToolchainToolSecuritycomplianceCreate
    dsimp only
    repeat' split
    all_goals simp [List.countP_cons, List.countP_nil, isCreateToolCall, hcr]
  · unfold resourceIBMCdToolchainToolSecuritycomplianceUpdate
    dsimp only
    repeat' split
    all_goals simp [List.countP_cons, List.countP_nil, isUpdateToolCall, hup]
  · unfold resourceIBMCdToolchainToolSecuritycomplianceDelete
    dsimp only
    repeat' split
    all_goals simp [List.countP_cons, List.countP_nil, isDeleteToolCall]

/-- C9: every CreateTool request the Create handler issues carries the
constant tool type id "security_compliance", whatever the environment and the
Terraform state; no input field can override it. -/
theorem createTool_type_id_invariant (env : Env) (d : ResourceData) (o : CreateToolOptions)
    (h : SdkCall.createTool o ∈
      (resourceIBMCdToolchainToolSecuritycomplianceCreate env d).calls) :
    o.toolTypeID = some "security_compliance" := by
  unfold resourceIBMCdToolchainToolSecuritycomplianceCreate at h
  revert h
  dsimp only
  repeat' split
  all_goals intro h
  all_goals simp only [List.mem_singleton, List.mem_cons, List.not_mem_nil, or_false] at h
  all_goals
    first
      | exact h.elim
      | (injection h with h2; subst h2; rfl)
      | (rcases h with h2 | h2
         · injection h2 with h3
           subst h3
           rfl
         · obtain ⟨g, hg⟩ := read_calls_mem env _ _ h2
           simp at hg)

/-- C7: the Read handler's response-to-state mapping is deterministic: two
clients whose GetToolByID oracles agree yield identical handler results, and
the referent-to-map converter sends equal models to equal maps. -/
theorem read_mapping_deterministic (env : Env) (c1 c2 : CdToolchainClient)
    (d : ResourceData) (m1 m2 : ToolModelReferent)
    (h : ∀ o, c1.getToolByID o = c2.getToolByID o) (hm : m1 = m2) :
    resourceIBMCdToolchainToolSecuritycomplianceRead
        { env with clientSession := Except.ok c1 } d =
      resourceIBMCdToolchainToolSecuritycomplianceRead
        { env with clientSession := Except.ok c2 } d ∧
    resourceIBMCdToolchainToolSecuritycomplianceToolModelReferentToMap m1 =
      resourceIBMCdToolchainToolSecuritycomplianceToolModelReferentToMap m2 := by
  subst hm
  refine ⟨?_, rfl⟩
  unfold resourceIBMCdToolchainToolSecuritycomplianceRead
  dsimp only
  simp only [h]

/-! ## Witnesses: the hypotheses of the theorems above hold at the concrete
fixtures, and the theorems apply there. -/

/-- Witness for C1 at the concrete fixtures. -/
theorem create_marshals_and_delegates_witness :
    sampleEnv.clientSession = Except.ok okClient ∧
    resourceIBMCdToolchainToolSecuritycomplianceCreate sampleEnv sampleData =
      (fun createToolOptions =>
        match okClient.createTool createToolOptions with
        | .err e _response =>
          { diags := some ("CreateToolWithContext failed " ++ e), d := sampleData,
            calls := [SdkCall.createTool createToolOptions] }
        | .ok post _response =>
          { diags := (resourceIBMCdToolchainToolSecuritycomplianceRead sampleEnv
              { sampleData with id := sampleData.toolchain_id ++ "/" ++ post.id }).diags,
            d := (resourceIBMCdToolchainToolSecuritycomplianceRead sampleEnv
              { sampleData with id := sampleData.toolchain_id ++ "/" ++ post.id }).d,
            calls := SdkCall.createTool createToolOptions ::
              (resourceIBMCdToolchainToolSecuritycomplianceRead sampleEnv
                { sampleData with id := sampleData.toolchain_id ++ "/" ++ post.id }).calls })
      { toolchainID := some sampleData.toolchain_id,
        toolTypeID := some "security_compliance",
        parameters := some (sampleEnv.getParametersForCreate sampleData
          ResourceIBMCdToolchainToolSecuritycompliance [("api_key", "api-key")]),
        name := if sampleData.name ≠ "" then some sampleData.name else none } :=
  ⟨rfl, create_marshals_and_delegates sampleEnv sampleData okClient rfl⟩

/-- Witness for C2 at the concrete fixtures. -/
theorem read_success_mirrors_fields_witness :
    sampleEnv.clientSession = Except.ok okClient ∧
    SepIdParts sampleData.id '/' = Except.ok ["tc1", "tool1"] ∧
    okClient.getToolByID
        { toolchainID := some (["tc1", "tool1"].getD 0 ""),
          toolID := some (["tc1", "tool1"].getD 1 "") } =
      SdkResult.ok sampleTool { statusCode := 200 } ∧
    resourceIBMCdToolchainToolSecuritycomplianceToolModelReferentToMap sampleTool.referent =
      Except.ok [("ui_href", "https://ui.example"), ("api_href", "https://api.example")] ∧
    resourceIBMCdToolchainToolSecuritycomplianceRead sampleEnv sampleData =
      { diags := none,
        d := { sampleData with
          toolchain_id := sampleTool.toolchainID.getD "",
          parameters := [sampleEnv.getParametersFromRead sampleTool.parameters
            ResourceIBMCdToolchainToolSecuritycompliance [("api_key", "api-key")]],
          name := sampleTool.name.getD "",
          resource_group_id := sampleTool.resourceGroupID.getD "",
          crn := sampleTool.crn.getD "",
          toolchain_crn := sampleTool.toolchainCRN.getD "",
          href := sampleTool.href.getD "",
          referent := [[("ui_href", "https://ui.example"), ("api_href", "https://api.example")]],
          updated_at := DateTimeToString sampleTool.updatedAt,
          state := sampleTool.state.getD "",
          tool_id := sampleTool.id.getD "" },
        calls := [SdkCall.getToolByID
          { toolchainID := some (["tc1", "tool1"].getD 0 ""),
            toolID := some (["tc1", "tool1"].getD 1 "") }] } :=
  ⟨rfl, rfl, rfl, rfl,
    read_success_mirrors_fields sampleEnv sampleData okClient ["tc1", "tool1"] sampleTool
      { statusCode := 200 } [("ui_href", "https://ui.example"), ("api_href", "https://api.example")]
      rfl rfl rfl rfl⟩

/-- Witness for C4 at the concrete fixtures. -/
theorem delete_spec_witness :
    sampleEnv.clientSession = Except.ok okClient ∧
    SepIdParts sampleData.id '/' = Except.ok ["tc1", "tool1"] ∧
    resourceIBMCdToolchainToolSecuritycomplianceDelete sampleEnv sampleData =
      match okClient.deleteTool
          { toolchainID := some (["tc1", "tool1"].getD 0 ""),
            toolID := some (["tc1", "tool1"].getD 1 "") } with
      | .err e _ =>
        { diags := some ("DeleteToolWithContext failed " ++ e), d := sampleData,
          calls := [SdkCall.deleteTool
            { toolchainID := some (["tc1", "tool1"].getD 0 ""),
              toolID := some (["tc1", "tool1"].getD 1 "") }] }
      | .ok _ _ =>
        { diags := none, d := { sampleData with id := "" },
          calls := [SdkCall.deleteTool
            { toolchainID := some (["tc1", "tool1"].getD 0 ""),
              toolID := some (["tc1", "tool1"].getD 1 "") }] } :=
  ⟨rfl, rfl, delete_spec sampleEnv sampleData okClient ["tc1", "tool1"] rfl rfl⟩

/-- Witness for C7 at the concrete fixtures. -/
theorem read_mapping_deterministic_witness :
    resourceIBMCdToolchainToolSecuritycomplianceRead
        { sampleEnv with clientSession := Except.ok okClient } sampleData =
      resourceIBMCdToolchainToolSecuritycomplianceRead
        { sampleEnv with clientSession := Except.ok okClient } sampleData ∧
    resourceIBMCdToolchainToolSecuritycomplianceToolModelReferentToMap sampleReferent =
      resourceIBMCdToolchainToolSecuritycomplianceToolModelReferentToMap sampleReferent :=
  read_mapping_deterministic sampleEnv okClient okClient sampleData sampleReferent
    sampleReferent (fun _ => rfl) rfl

/-- Witness for C8 at the concrete fixtures. -/
theorem read_error_spec_witness :
    notFoundEnv.clientSession = Except.ok notFoundClient ∧
    SepIdParts sampleData.id '/' = Except.ok ["tc1", "tool1"] ∧
    notFoundClient.getToolByID
        { toolchainID := some (["tc1", "tool1"].getD 0 ""),
          toolID := some (["tc1", "tool1"].getD 1 "") } =
      SdkResult.err "Not Found" (some { statusCode := 404 }) ∧
    resourceIBMCdToolchainToolSecuritycomplianceRead notFoundEnv sampleData =
      (if (match (some { statusCode := 404 } : Option DetailedResponse) with
          | some r => decide (r.statusCode = 404) | none => false) then
        { diags := none, d := { sampleData with id := "" },
          calls := [SdkCall.getToolByID
            { toolchainID := some (["tc1", "tool1"].getD 0 ""),
              toolID := some (["tc1", "tool1"].getD 1 "") }] }
      else
        { diags := some ("GetToolByIDWithContext failed " ++ "Not Found"), d := sampleData,
          calls := [SdkCall.getToolByID
            { toolchainID := some (["tc1", "tool1"].getD 0 ""),
              toolID := some (["tc1", "tool1"].getD 1 "") }] }) :=
  ⟨rfl, rfl, rfl,
    read_error_spec notFoundEnv sampleData notFoundClient ["tc1", "tool1"] "Not Found"
      (some { statusCode := 404 }) rfl rfl rfl⟩

/-- Witness for C9 at the concrete fixtures. -/
theorem createTool_type_id_invariant_witness :
    SdkCall.createTool
        { toolchainID := some "tc1", toolTypeID := some "security_compliance",
          parameters := some [("name", "sc-tool")], name := some "my-sc-tool" } ∈
      (resourceIBMCdToolchainToolSecuritycomplianceCreate sampleEnv sampleData).calls ∧
    CreateToolOptions.toolTypeID
        { toolchainID := some "tc1", toolTypeID := some "security_compliance",
          parameters := some [("name", "sc-tool")], name := some "my-sc-tool" } =
      some "security_compliance" :=
  ⟨by decide, createTool_type_id_invariant sampleEnv sampleData _ (by decide)⟩

/-- Witness for C10 at the concrete fixtures. -/
theorem update_forcenew_spec_witness :
    sampleEnv.clientSession = Except.ok okClient ∧
    SepIdParts changedTcData.id '/' = Except.ok ["tc1", "tool1"] ∧
    changedTcData.changedFields.contains "toolchain_id" = true ∧
    (resourceIBMCdToolchainToolSecuritycomplianceUpdate sampleEnv changedTcData =
        { diags := some forceNewDiagMsg, d := changedTcData, calls := [] } ∧
      ∃ s1 s2 : String, forceNewDiagMsg = s1 ++ ("ForceNew" ++ s2)) :=
  ⟨rfl, rfl, rfl,
    update_forcenew_spec sampleEnv changedTcData okClient ["tc1", "tool1"] rfl rfl rfl⟩

end CdToolchainSecComp
